import Mathlib

/-!
Verification of the schedule engine of the fizteh-radio server.

The Go sources (package models and the schedule service) are shallowly
embedded below.  Machine integers (int64), instants (time.Time) and
durations (time.Duration) are modelled as Lean Int; nil-able pointer
fields are Option; a Go value returned next to an error is modelled as a
pair with an Option error component; a nil-pointer dereference is the
distinguished outcome none of an Option-valued embedding.  The two
notification channels and the storage mutations are recorded as an
explicit event trace in the order in which the service performs them.
The external storage and media collaborators are parameters: structures
of response functions mirroring the ScheduleStorage and MediaStorage
interfaces of the service.
-/

namespace Radio

namespace models

abbrev Int64 := Int

/-- An instant of Go time.Time, as nanoseconds since the epoch. -/
abbrev TimeT := Int

/-- A Go time.Duration, in nanoseconds. -/
abbrev DurationT := Int

structure TagType where
  ID : Int64
  Name : String
deriving DecidableEq

structure Tag where
  ID : Int64
  Name : String
  «Type» : TagType
deriving DecidableEq

abbrev TagList := List Tag

/-- Go struct models.Media; pointer fields are Option. -/
structure Media where
  ID : Option Int64
  Name : Option String
  Author : Option String
  Duration : Option DurationT
  SourceID : Option Int64
  Tags : TagList
deriving DecidableEq

/-- Go struct models.Segment; pointer fields are Option. -/
structure Segment where
  ID : Option Int64
  MediaID : Option Int64
  Start : Option TimeT
  BeginCut : Option DurationT
  StopCut : Option DurationT
  Protected : Bool
deriving DecidableEq

/-- Modelled from the spec: the method Segment.End is called by the engine
(Schedule.NewSegment) but its definition is not among the provided source
files.  Spec section 3 defines the derived value end = start + (stopCut −
beginCut).  Like every pointer access in the engine it dereferences the
Start, BeginCut and StopCut fields, so the result is none when any of them
is nil. -/
def Segment.End (sg : Segment) : Option TimeT :=
  match sg.Start, sg.BeginCut, sg.StopCut with
  | some st, some bc, some sc => some (st + (sc - bc))
  | _, _, _ => none

/-- The Go zero value of models.Segment, returned by the service getter on
a not-found error. -/
def emptySegment : Segment :=
  { ID := none, MediaID := none, Start := none, BeginCut := none,
    StopCut := none, Protected := false }

/-- The custom time layout constant of package models. -/
def TimeFormat : String := "2006-01-02T15:04:05.999999999-07:00"

/-- Broken-down rendering of a time.Time in its location: the calendar
and clock fields Go's Format reads, the nanosecond within the second, and
the zone offset in minutes. -/
structure GoTime where
  year : Nat
  month : Nat
  day : Nat
  hour : Nat
  minute : Nat
  second : Nat
  nanos : Nat
  offsetMinutes : Int
deriving DecidableEq

/-- Two-digit zero-padded decimal, as Go's Format prints the layout pieces
01, 02, 15, 04, 05 (the fields are below 100 for real times). -/
def pad2 (n : Nat) : List Char :=
  [Nat.digitChar (n / 10 % 10), Nat.digitChar (n % 10)]

/-- Four-digit zero-padded decimal, as Go's Format prints the layout piece
2006 (years of real schedules are below 10000). -/
def pad4 (n : Nat) : List Char :=
  [Nat.digitChar (n / 1000 % 10), Nat.digitChar (n / 100 % 10),
   Nat.digitChar (n / 10 % 10), Nat.digitChar (n % 10)]

/-- The nine decimal digits of a nanosecond value below 10^9. -/
def nineDigits (n : Nat) : List Char :=
  [Nat.digitChar (n / 100000000 % 10), Nat.digitChar (n / 10000000 % 10),
   Nat.digitChar (n / 1000000 % 10), Nat.digitChar (n / 100000 % 10),
   Nat.digitChar (n / 10000 % 10), Nat.digitChar (n / 1000 % 10),
   Nat.digitChar (n / 100 % 10), Nat.digitChar (n / 10 % 10),
   Nat.digitChar (n % 10)]

def dropTrailingZeros (l : List Char) : List Char :=
  (l.reverse.dropWhile (fun c => c == '0')).reverse

/-- Go's fmtFrac with trimming, for the layout piece ".999999999": prints
a decimal point and the nanosecond digits with trailing zeros removed, and
prints nothing at all when the fraction is zero. -/
def fracNanos (n : Nat) : List Char :=
  if n = 0 then [] else '.' :: dropTrailingZeros (nineDigits n)

/-- Go's Format output for the layout piece "-07:00": a sign, the offset
hours, a colon, the offset minutes. -/
def offsetChars (mins : Int) : List Char :=
  (if mins < 0 then '-' else '+') ::
    (pad2 (mins.natAbs / 60) ++ ':' :: pad2 (mins.natAbs % 60))

/-- The date-and-clock part of the layout, "2006-01-02T15:04:05". -/
def dateTimeChars (t : GoTime) : List Char :=
  pad4 t.year ++ '-' :: (pad2 t.month ++ '-' :: (pad2 t.day ++ 'T' ::
    (pad2 t.hour ++ ':' :: (pad2 t.minute ++ ':' :: pad2 t.second))))

/-- Go's t.Format(TimeFormat) specialized to the layout
"2006-01-02T15:04:05.999999999-07:00". -/
def GoTime.Format (t : GoTime) : List Char :=
  dateTimeChars t ++ fracNanos t.nanos ++ offsetChars t.offsetMinutes

/-- The string stored under the start key of the Segment.MarshalJSON
output: the Time field of the wrapper struct, s.Start.Format(TimeFormat),
where the GoTime argument is the broken-down view of the non-nil start
instant. -/
def marshalJSONStart (t : GoTime) : String := String.mk (GoTime.Format t)

end models

/-- Sentinel errors of the storage layer; other faults carry a code. -/
inductive StorageErr where
  | mediaNotFound
  | segmentNotFound
  | other (code : Nat)
deriving DecidableEq

/-- Service-level errors: the service sentinels, a storage fault, and the
wrapping fmt.Errorf("%s: %w", op, err) applies to a fault. -/
inductive SvcErr where
  | mediaNotFound
  | cutOutOfBounds
  | beginAfterStop
  | segmentIntersection
  | segmentNotFound
  | store (e : StorageErr)
  | wrap (op : String) (e : SvcErr)
deriving DecidableEq

/-- Go's errors.Is for this error universe: compare, then unwrap the %w
chain. -/
def errorsIs (e target : SvcErr) : Bool :=
  if e = target then true
  else
    match e with
    | .wrap _ inner => errorsIs inner target
    | _ => false

/-- One observable action of the engine: a storage mutation call or a
send on one of the two notification channels (chans.Send on the
all-segments channel, chans.Notify on the protected-segments channel),
recorded in the order the service performs them. -/
inductive Event where
  | save (segment : models.Segment)
  | delete (id : models.Int64)
  | protect (id : models.Int64)
  | sendAll (segment : models.Segment)
  | notifyProtected
deriving DecidableEq

/-- The ScheduleStorage interface consumed by the service, as response
functions of the external store. -/
structure ScheduleStorage where
  ScheduleCut : models.TimeT → models.TimeT → Except StorageErr (List models.Segment)
  SaveSegment : models.Segment → Except StorageErr models.Int64
  Segment : models.Int64 → Except StorageErr models.Segment
  DeleteSegment : models.Int64 → Except StorageErr Unit
  ProtectSegment : models.Int64 → Except StorageErr Unit
  IsSegmentProtected : models.Int64 → Except StorageErr Bool
  ClearSchedule : models.TimeT → Except StorageErr Unit

/-- The MediaStorage interface consumed by the service. -/
structure MediaStorage where
  Media : models.Int64 → Except StorageErr models.Media

/-- The schedule service.  The logger is omitted (logging only reads
values) and the two channels are modelled by the event trace. -/
structure Schedule where
  schStorage : ScheduleStorage
  mediaStorage : MediaStorage

/-- The protection-annotation loop of Schedule.ScheduleCut: for each
returned segment, fetch its protection flag ( *segment.ID is
dereferenced ) and store it in the Protected field; the first storage
fault aborts. -/
def protLoop (store : ScheduleStorage) :
    List models.Segment → Option (Except SvcErr (List models.Segment))
  | [] => some (Except.ok [])
  | seg :: rest =>
    match seg.ID with
    | none => none
    | some id =>
      match store.IsSegmentProtected id with
      | Except.error e =>
        some (Except.error (SvcErr.wrap "Schedule.ScheduleCut" (SvcErr.store e)))
      | Except.ok isProt =>
        match protLoop store rest with
        | none => none
        | some (Except.error e) => some (Except.error e)
        | some (Except.ok rest2) =>
          some (Except.ok ({ seg with Protected := isProt } :: rest2))

/-- Schedule.ScheduleCut: range query, then the protection loop.  The Go
function returns the pair ([]models.Segment, error); on every error path
the returned slice is the empty literal. -/
def Schedule.ScheduleCut (s : Schedule) (start stop : models.TimeT) :
    Option (List models.Segment × Option SvcErr) :=
  match s.schStorage.ScheduleCut start stop with
  | Except.error e =>
    some ([], some (SvcErr.wrap "Schedule.ScheduleCut" (SvcErr.store e)))
  | Except.ok segments =>
    match protLoop s.schStorage segments with
    | none => none
    | some (Except.error e) => some ([], some e)
    | some (Except.ok segs) => some (segs, none)

/-- Schedule.DeleteSegment: fetch the protection flag, then delete, then
notify the protected-segments channel when the deleted segment was
protected.  A storage segment-not-found at either step maps to the
service sentinel. -/
def Schedule.DeleteSegment (s : Schedule) (id : models.Int64) :
    Option SvcErr × List Event :=
  match s.schStorage.IsSegmentProtected id with
  | Except.error e =>
    if e = StorageErr.segmentNotFound then (some SvcErr.segmentNotFound, [])
    else (some (SvcErr.wrap "Schedule.DeleteSegment" (SvcErr.store e)), [])
  | Except.ok isProt =>
    match s.schStorage.DeleteSegment id with
    | Except.error e =>
      if e = StorageErr.segmentNotFound then
        (some SvcErr.segmentNotFound, [Event.delete id])
      else (some (SvcErr.wrap "Schedule.DeleteSegment" (SvcErr.store e)), [Event.delete id])
    | Except.ok _ =>
      if isProt then (none, [Event.delete id, Event.notifyProtected])
      else (none, [Event.delete id])

/-- The displacement loop of the protected insertion path of
Schedule.NewSegment: every overlapping segment is deleted through the
service deletion, skipping a segment when segm.End() = *segment.Start or
*segm.Start = segm.End() (the condition exactly as written in the
source); a segment-not-found from the deletion is tolerated, any other
fault aborts with the events performed so far. -/
def deleteLoop (s : Schedule) (newStart : models.TimeT) :
    List models.Segment → Option (Option SvcErr × List Event)
  | [] => some (none, [])
  | segm :: rest =>
    match models.Segment.End segm with
    | none => none
    | some segmEnd =>
      match segm.Start with
      | none => none
      | some segmStart =>
        if segmEnd = newStart ∨ segmStart = segmEnd then
          deleteLoop s newStart rest
        else
          match segm.ID with
          | none => none
          | some segmId =>
            match s.DeleteSegment segmId with
            | (some e, evs) =>
              if errorsIs e SvcErr.segmentNotFound then
                match deleteLoop s newStart rest with
                | none => none
                | some (r, evs2) => some (r, evs ++ evs2)
              else some (some (SvcErr.wrap "Schedule.NewSegment" e), evs)
            | (none, evs) =>
              match deleteLoop s newStart rest with
              | none => none
              | some (r, evs2) => some (r, evs ++ evs2)

/-- The unprotected branch of Schedule.NewSegment after the overlap
query: a non-empty overlap set is rejected; otherwise the source sends
the segment on the all-segments channel and then saves it. -/
def newSegmentUnprot (s : Schedule) (segment : models.Segment)
    (res : List models.Segment) :
    Option ((models.Int64 × Option SvcErr) × List Event) :=
  if res.length > 0 then some ((0, some SvcErr.segmentIntersection), [])
  else
    match s.schStorage.SaveSegment segment with
    | Except.error e =>
      some ((0, some (SvcErr.wrap "Schedule.NewSegment" (SvcErr.store e))),
        [Event.sendAll segment, Event.save segment])
    | Except.ok id =>
      some ((id, none), [Event.sendAll segment, Event.save segment])

/-- The protected branch of Schedule.NewSegment after the overlap query:
reject when some overlapping segment is protected (the warning for it
dereferences that segment's Start and End), otherwise displace the
overlaps, save, set protection, notify the protected-segments channel and
send on the all-segments channel, in that order. -/
def newSegmentProt (s : Schedule) (segment : models.Segment)
    (start : models.TimeT) (res : List models.Segment) :
    Option ((models.Int64 × Option SvcErr) × List Event) :=
  match res.find? (fun sg => sg.Protected) with
  | some found =>
    match found.Start, models.Segment.End found with
    | some _, some _ => some ((0, some SvcErr.segmentIntersection), [])
    | _, _ => none
  | none =>
    match deleteLoop s start res with
    | none => none
    | some (some e, evs) => some ((0, some e), evs)
    | some (none, evs) =>
      match s.schStorage.SaveSegment segment with
      | Except.error e =>
        some ((0, some (SvcErr.wrap "Schedule.NewSegment" (SvcErr.store e))),
          evs ++ [Event.save segment])
      | Except.ok id =>
        match s.schStorage.ProtectSegment id with
        | Except.error e =>
          some ((0, some (SvcErr.wrap "Schedule.NewSegment" (SvcErr.store e))),
            evs ++ [Event.save segment, Event.protect id])
        | Except.ok _ =>
          some ((id, none),
            evs ++ [Event.save segment, Event.protect id,
              Event.notifyProtected, Event.sendAll segment])

/-- Schedule.NewSegment from the overlap query on: the query interval is
[*segment.Start, segment.End()), an error from the query is wrapped, then
the unprotected or protected branch runs. -/
def newSegmentOverlap (s : Schedule) (segment : models.Segment)
    (start stop : models.TimeT) :
    Option ((models.Int64 × Option SvcErr) × List Event) :=
  match s.ScheduleCut start stop with
  | none => none
  | some (_, some e) =>
    some ((0, some (SvcErr.wrap "Schedule.NewSegment" e)), [])
  | some (res, none) =>
    if segment.Protected = false then newSegmentUnprot s segment res
    else newSegmentProt s segment start res

/-- Schedule.NewSegment from the cut validation on, with the media
duration and the two cut pointers already dereferenced. -/
def newSegmentCut (s : Schedule) (segment : models.Segment)
    (dur beginCut stopCut : Int) :
    Option ((models.Int64 × Option SvcErr) × List Event) :=
  if dur < stopCut ∨ dur < beginCut ∨ beginCut < 0 ∨ stopCut < 0 then
    some ((0, some SvcErr.cutOutOfBounds), [])
  else if beginCut > stopCut then
    some ((0, some SvcErr.beginAfterStop), [])
  else
    match segment.Start with
    | none => none
    | some start => newSegmentOverlap s segment start (start + (stopCut - beginCut))

/-- Schedule.NewSegment: media lookup through *segment.MediaID, cut
validation through *media.Duration, *segment.StopCut and
*segment.BeginCut (any of them nil makes the function crash, in the
comparison chain or in the warning that logs both cuts), then the overlap
handling.  The result pairs the Go return values (int64, error) with the
event trace; none is the nil-dereference outcome. -/
def Schedule.NewSegment (s : Schedule) (segment : models.Segment) :
    Option ((models.Int64 × Option SvcErr) × List Event) :=
  match segment.MediaID with
  | none => none
  | some mediaId =>
    match s.mediaStorage.Media mediaId with
    | Except.error e =>
      if e = StorageErr.mediaNotFound then some ((0, some SvcErr.mediaNotFound), [])
      else some ((0, some (SvcErr.wrap "Schedule.NewSegment" (SvcErr.store e))), [])
    | Except.ok media =>
      match media.Duration with
      | none => none
      | some dur =>
        match segment.StopCut with
        | none => none
        | some stopCut =>
          match segment.BeginCut with
          | none => none
          | some beginCut => newSegmentCut s segment dur beginCut stopCut

/-- Schedule.Segment: fetch the segment, log its fields (dereferencing
MediaID, Start, BeginCut, StopCut), fetch the protection flag and merge
it in. -/
def Schedule.Segment (s : Schedule) (id : models.Int64) :
    Option (models.Segment × Option SvcErr) :=
  match s.schStorage.Segment id with
  | Except.error e =>
    if e = StorageErr.segmentNotFound then
      some (models.emptySegment, some SvcErr.segmentNotFound)
    else some (models.emptySegment, some (SvcErr.wrap "Schedule.Segment" (SvcErr.store e)))
  | Except.ok segment =>
    match segment.MediaID, segment.Start, segment.BeginCut, segment.StopCut with
    | some _, some _, some _, some _ =>
      match s.schStorage.IsSegmentProtected id with
      | Except.error e =>
        some (models.emptySegment, some (SvcErr.wrap "Schedule.Segment" (SvcErr.store e)))
      | Except.ok isProt => some ({ segment with Protected := isProt }, none)
    | _, _, _, _ => none

/-- Schedule.ClearSchedule: a single storage call, faults wrapped. -/
def Schedule.ClearSchedule (s : Schedule) (stamp : models.TimeT) : Option SvcErr :=
  match s.schStorage.ClearSchedule stamp with
  | Except.error e => some (SvcErr.wrap "Schedule.ClearSchedule" (SvcErr.store e))
  | Except.ok _ => none

/-! Concrete collaborators used to evaluate the engine on closed inputs. -/

/-- A media item of duration 300 (nanoseconds in the model; the value only
has to dominate the cuts below). -/
def mediaA : models.Media :=
  { ID := some 1, Name := some "m", Author := some "a", Duration := some 300,
    SourceID := none, Tags := [] }

/-- A media store knowing exactly the media item with id 1. -/
def mediaStoreA : MediaStorage :=
  { Media := fun mid => if mid = 1 then Except.ok mediaA else Except.error StorageErr.mediaNotFound }

/-- A stored unprotected segment with id 7 occupying [100, 150). -/
def segE : models.Segment :=
  { ID := some 7, MediaID := some 1, Start := some 100, BeginCut := some 0,
    StopCut := some 50, Protected := false }

/-- The stored segment with id 9 occupying [100, 150); its protection flag
is delivered by the store below. -/
def segE9 : models.Segment :=
  { ID := some 9, MediaID := some 1, Start := some 100, BeginCut := some 0,
    StopCut := some 50, Protected := false }

/-- A new unprotected segment occupying [120, 150). -/
def segU : models.Segment :=
  { ID := none, MediaID := some 1, Start := some 120, BeginCut := some 0,
    StopCut := some 30, Protected := false }

/-- A new protected segment occupying [120, 150). -/
def segP : models.Segment :=
  { ID := none, MediaID := some 1, Start := some 120, BeginCut := some 0,
    StopCut := some 30, Protected := true }

/-- A new protected segment occupying [90, 100): its end instant equals the
start instant of segE, so the two are merely boundary-adjacent. -/
def segN1 : models.Segment :=
  { ID := none, MediaID := some 1, Start := some 90, BeginCut := some 0,
    StopCut := some 10, Protected := true }

/-- A store whose range query returns the unprotected segment segE and
whose mutations succeed (saves are assigned id 42). -/
def store1 : ScheduleStorage :=
  { ScheduleCut := fun _ _ => Except.ok [segE],
    SaveSegment := fun _ => Except.ok 42,
    Segment := fun _ => Except.error StorageErr.segmentNotFound,
    DeleteSegment := fun _ => Except.ok (),
    ProtectSegment := fun _ => Except.ok (),
    IsSegmentProtected := fun _ => Except.ok false,
    ClearSchedule := fun _ => Except.ok () }

def sched1 : Schedule := { schStorage := store1, mediaStorage := mediaStoreA }

/-- A store with an empty schedule whose save always fails. -/
def store2 : ScheduleStorage :=
  { store1 with
    ScheduleCut := fun _ _ => Except.ok [],
    SaveSegment := fun _ => Except.error (StorageErr.other 3) }

def sched2 : Schedule := { schStorage := store2, mediaStorage := mediaStoreA }

/-- A store whose range query returns segE9 and which reports exactly the
segment with id 9 as protected. -/
def store4 : ScheduleStorage :=
  { store1 with
    ScheduleCut := fun _ _ => Except.ok [segE9],
    IsSegmentProtected := fun id => Except.ok (decide (id = 9)) }

def sched4 : Schedule := { schStorage := store4, mediaStorage := mediaStoreA }

/-- A store reporting every segment protected, with succeeding mutations. -/
def store7 : ScheduleStorage :=
  { store1 with IsSegmentProtected := fun _ => Except.ok true }

def sched7 : Schedule := { schStorage := store7, mediaStorage := mediaStoreA }

/-- A store whose range query always faults. -/
def store9 : ScheduleStorage :=
  { store1 with ScheduleCut := fun _ _ => Except.error (StorageErr.other 2) }

def sched9 : Schedule := { schStorage := store9, mediaStorage := mediaStoreA }

/-- Claim C1, behaviour of the code at the claimed exemption: inserting the
protected segment segN1 with interval [90, 100) while the overlap query
returns the unprotected segment segE with interval [100, 150) — the new
segment's end equals the existing segment's start, a merely
boundary-adjacent overlap that the claim says must be left untouched — the
engine nevertheless deletes segE (id 7): the skip condition of the source,
segm.End() = *segment.Start or *segm.Start = segm.End(), compares the
existing segment with itself in its second disjunct instead of comparing
the existing segment's start with the new segment's end. -/
theorem C1_adjacent_segment_deleted :
    sched1.NewSegment segN1 =
      some ((42, none),
        [Event.delete 7, Event.save segN1, Event.protect 42,
         Event.notifyProtected, Event.sendAll segN1]) ∧
    (models.Segment.End segN1 = some 100 ∧ segE.Start = some 100) := by
  decide

/-- Claim C2, behaviour of the code on the unprotected insertion path with
an empty overlap set: the engine sends the segment on the all-segments
channel first and only then calls SaveSegment; here the save fails, yet
the payload was already published — the trace starts with the send and the
result is the wrapped storage error. -/
theorem C2_publish_before_save :
    sched2.NewSegment segU =
      some ((0, some (SvcErr.wrap "Schedule.NewSegment" (SvcErr.store (StorageErr.other 3)))),
        [Event.sendAll segU, Event.save segU]) := by
  decide

/-- Claim C3: for every unprotected segment whose overlap query returns a
non-empty set, Schedule.NewSegment fails with SegmentIntersection, performs
no store write (no save, no delete, no protect) and sends nothing on either
notification channel — the event trace is empty. -/
theorem C3_unprotected_intersection_rejected
    (s : Schedule) (segment : models.Segment) (mid : models.Int64)
    (media : models.Media) (dur bc sc : Int) (st : models.TimeT)
    (res : List models.Segment)
    (hprot : segment.Protected = false)
    (hmid : segment.MediaID = some mid)
    (hmedia : s.mediaStorage.Media mid = Except.ok media)
    (hdur : media.Duration = some dur)
    (hsc : segment.StopCut = some sc)
    (hbc : segment.BeginCut = some bc)
    (hok : ¬(dur < sc ∨ dur < bc ∨ bc < 0 ∨ sc < 0))
    (hbs : ¬(bc > sc))
    (hst : segment.Start = some st)
    (hcut : s.ScheduleCut st (st + (sc - bc)) = some (res, none))
    (hres : res ≠ []) :
    s.NewSegment segment = some ((0, some SvcErr.segmentIntersection), []) := by
  simp [Schedule.NewSegment, newSegmentCut, newSegmentOverlap, newSegmentUnprot,
    hmid, hmedia, hdur, hsc, hbc, hok, hbs, hst, hcut, hprot, hres]

/-- Claim C3 witness: the unprotected segment segU with interval [120, 150)
overlaps the stored segment segE with interval [100, 150) and is rejected
with an empty trace. -/
theorem C3_witness :
    sched1.NewSegment segU = some ((0, some SvcErr.segmentIntersection), []) :=
  C3_unprotected_intersection_rejected sched1 segU 1 mediaA 300 0 30 120 [segE]
    (by decide) (by decide) rfl (by decide) (by decide) (by decide)
    (by decide) (by decide) (by decide) (by decide) (by decide)

/-- Claim C4: for every protected segment whose overlap query returns at
least one segment that is itself protected, Schedule.NewSegment fails with
SegmentIntersection and has no side effects: the event trace is empty, so
nothing is deleted, saved or protected and neither channel fires.  (The
found segment's Start, BeginCut and StopCut must be non-nil, as the
rejection path formats them into its warning.) -/
theorem C4_protected_conflict_rejected
    (s : Schedule) (segment : models.Segment) (mid : models.Int64)
    (media : models.Media) (dur bc sc : Int) (st : models.TimeT)
    (res : List models.Segment) (found : models.Segment) (fst fen : models.TimeT)
    (hprot : segment.Protected = true)
    (hmid : segment.MediaID = some mid)
    (hmedia : s.mediaStorage.Media mid = Except.ok media)
    (hdur : media.Duration = some dur)
    (hsc : segment.StopCut = some sc)
    (hbc : segment.BeginCut = some bc)
    (hok : ¬(dur < sc ∨ dur < bc ∨ bc < 0 ∨ sc < 0))
    (hbs : ¬(bc > sc))
    (hst : segment.Start = some st)
    (hcut : s.ScheduleCut st (st + (sc - bc)) = some (res, none))
    (hfind : res.find? (fun sg => sg.Protected) = some found)
    (hfst : found.Start = some fst)
    (hfen : models.Segment.End found = some fen) :
    s.NewSegment segment = some ((0, some SvcErr.segmentIntersection), []) := by
  simp [Schedule.NewSegment, newSegmentCut, newSegmentOverlap, newSegmentProt,
    hmid, hmedia, hdur, hsc, hbc, hok, hbs, hst, hcut, hprot, hfind, hfst, hfen]

/-- Claim C4 witness: the protected segment segP with interval [120, 150)
overlaps the stored segment segE9 with interval [100, 150) which the store
reports protected; the insertion is rejected with an empty trace. -/
theorem C4_witness :
    sched4.NewSegment segP = some ((0, some SvcErr.segmentIntersection), []) :=
  C4_protected_conflict_rejected sched4 segP 1 mediaA 300 0 30 120
    [{ segE9 with Protected := true }] { segE9 with Protected := true } 100 150
    (by decide) (by decide) rfl (by decide) (by decide) (by decide)
    (by decide) (by decide) (by decide) (by decide) (by decide) (by decide) (by decide)

/-- Claim C5: on the protected insertion path, once the displacement loop
has cleared the conflicting segments (its events evs), the engine performs,
in this exact order: the save of the new segment, the protection of the
assigned id, the protection-changed signal and the all-segments payload —
so whenever both notifications fire, the protection signal strictly
precedes the segment payload. -/
theorem C5_protected_success_order
    (s : Schedule) (segment : models.Segment) (mid : models.Int64)
    (media : models.Media) (dur bc sc : Int) (st : models.TimeT)
    (res : List models.Segment) (evs : List Event) (id : models.Int64)
    (hprot : segment.Protected = true)
    (hmid : segment.MediaID = some mid)
    (hmedia : s.mediaStorage.Media mid = Except.ok media)
    (hdur : media.Duration = some dur)
    (hsc : segment.StopCut = some sc)
    (hbc : segment.BeginCut = some bc)
    (hok : ¬(dur < sc ∨ dur < bc ∨ bc < 0 ∨ sc < 0))
    (hbs : ¬(bc > sc))
    (hst : segment.Start = some st)
    (hcut : s.ScheduleCut st (st + (sc - bc)) = some (res, none))
    (hfind : res.find? (fun sg => sg.Protected) = none)
    (hdel : deleteLoop s st res = some (none, evs))
    (hsave : s.schStorage.SaveSegment segment = Except.ok id)
    (hps : s.schStorage.ProtectSegment id = Except.ok ()) :
    s.NewSegment segment =
      some ((id, none),
        evs ++ [Event.save segment, Event.protect id,
          Event.notifyProtected, Event.sendAll segment]) := by
  simp [Schedule.NewSegment, newSegmentCut, newSegmentOverlap, newSegmentProt,
    hmid, hmedia, hdur, hsc, hbc, hok, hbs, hst, hcut, hprot, hfind, hdel, hsave, hps]

/-- Claim C5 witness: inserting the protected segment segP with interval
[120, 150) over the unprotected stored segment segE with interval
[100, 150): segE is deleted, segP saved as id 42 and protected, and the
protection signal precedes the all-segments payload. -/
theorem C5_witness :
    sched1.NewSegment segP =
      some ((42, none),
        [Event.delete 7, Event.save segP, Event.protect 42,
         Event.notifyProtected, Event.sendAll segP]) := by
  have h := C5_protected_success_order sched1 segP 1 mediaA 300 0 30 120 [segE]
    [Event.delete 7] 42 (by decide) (by decide) rfl (by decide) (by decide)
    (by decide) (by decide) (by decide) (by decide) (by decide) (by decide)
    (by decide) rfl rfl
  simpa using h

/-- Claim C6: after a successful media lookup, a cut violating the bounds
(negative, or beyond the media duration) fails with CutOutOfBounds, and an
in-bounds cut with beginCut greater than stopCut fails with BeginAfterStop;
in both cases nothing is persisted and no notification is sent (empty
trace). -/
theorem C6_cut_validation
    (s : Schedule) (segment : models.Segment) (mid : models.Int64)
    (media : models.Media) (dur bc sc : Int)
    (hmid : segment.MediaID = some mid)
    (hmedia : s.mediaStorage.Media mid = Except.ok media)
    (hdur : media.Duration = some dur)
    (hsc : segment.StopCut = some sc)
    (hbc : segment.BeginCut = some bc) :
    ((bc < 0 ∨ sc < 0 ∨ dur < bc ∨ dur < sc) →
      s.NewSegment segment = some ((0, some SvcErr.cutOutOfBounds), [])) ∧
    (¬(bc < 0 ∨ sc < 0 ∨ dur < bc ∨ dur < sc) → bc > sc →
      s.NewSegment segment = some ((0, some SvcErr.beginAfterStop), [])) := by
  constructor
  · intro h
    have h2 : dur < sc ∨ dur < bc ∨ bc < 0 ∨ sc < 0 := by tauto
    simp [Schedule.NewSegment, newSegmentCut, hmid, hmedia, hdur, hsc, hbc, h2]
  · intro h hbs
    have h2 : ¬(dur < sc ∨ dur < bc ∨ bc < 0 ∨ sc < 0) := by tauto
    simp [Schedule.NewSegment, newSegmentCut, hmid, hmedia, hdur, hsc, hbc, h2, hbs]

/-- A segment whose stop cut exceeds the media duration. -/
def segBadCut : models.Segment :=
  { ID := none, MediaID := some 1, Start := some 0, BeginCut := some 0,
    StopCut := some 400, Protected := false }

/-- A segment whose begin cut exceeds its stop cut. -/
def segBadOrder : models.Segment :=
  { ID := none, MediaID := some 1, Start := some 0, BeginCut := some 30,
    StopCut := some 10, Protected := false }

/-- Claim C6 witness: a stop cut of 400 against duration 300 is rejected
with CutOutOfBounds, and cuts 30 greater than 10 are rejected with
BeginAfterStop, both with an empty trace. -/
theorem C6_witness :
    sched1.NewSegment segBadCut = some ((0, some SvcErr.cutOutOfBounds), []) ∧
    sched1.NewSegment segBadOrder = some ((0, some SvcErr.beginAfterStop), []) :=
  ⟨(C6_cut_validation sched1 segBadCut 1 mediaA 300 0 400 (by decide) rfl
      (by decide) (by decide) (by decide)).1 (by decide),
   (C6_cut_validation sched1 segBadOrder 1 mediaA 300 30 10 (by decide) rfl
      (by decide) (by decide) (by decide)).2 (by decide) (by decide)⟩

/-- Claim C7: Schedule.DeleteSegment fetches the protection flag before
deleting — when the store reports the segment absent at the protection
fetch the service fails with SegmentNotFound without even calling the
delete; a not-found at the delete step also maps to SegmentNotFound; on
success the protection-changed signal fires exactly when the deleted
segment was protected; and on every failing outcome no signal is sent. -/
theorem C7_delete_segment_spec (s : Schedule) (id : models.Int64) :
    (s.schStorage.IsSegmentProtected id = Except.error StorageErr.segmentNotFound →
      s.DeleteSegment id = (some SvcErr.segmentNotFound, [])) ∧
    (∀ p, s.schStorage.IsSegmentProtected id = Except.ok p →
      s.schStorage.DeleteSegment id = Except.error StorageErr.segmentNotFound →
      s.DeleteSegment id = (some SvcErr.segmentNotFound, [Event.delete id])) ∧
    (∀ p, s.schStorage.IsSegmentProtected id = Except.ok p →
      s.schStorage.DeleteSegment id = Except.ok () →
      s.DeleteSegment id =
        (none, if p then [Event.delete id, Event.notifyProtected] else [Event.delete id])) ∧
    ((s.DeleteSegment id).1 ≠ none → Event.notifyProtected ∉ (s.DeleteSegment id).2) := by
  refine ⟨?_, ?_, ?_, ?_⟩
  · intro h
    simp [Schedule.DeleteSegment, h]
  · intro p h hd
    simp [Schedule.DeleteSegment, h, hd]
  · intro p h hd
    cases p <;> simp [Schedule.DeleteSegment, h, hd]
  · intro herr
    cases hIs : s.schStorage.IsSegmentProtected id with
    | error e =>
      by_cases he : e = StorageErr.segmentNotFound <;>
        simp [Schedule.DeleteSegment, hIs, he]
    | ok p =>
      cases hD : s.schStorage.DeleteSegment id with
      | error e2 =>
        by_cases he : e2 = StorageErr.segmentNotFound <;>
          simp [Schedule.DeleteSegment, hIs, hD, he]
      | ok u =>
        exfalso
        apply herr
        cases p <;> simp [Schedule.DeleteSegment, hIs, hD]

/-- Claim C7 witness: deleting segment 5 against a store that reports it
protected and deletes it successfully emits exactly one protection-changed
signal, after the delete. -/
theorem C7_witness :
    sched7.DeleteSegment 5 = (none, [Event.delete 5, Event.notifyProtected]) := by
  have h := (C7_delete_segment_spec sched7 5).2.2.1 true rfl rfl
  simpa using h

/-- Claim C9: Schedule.ScheduleCut returns the empty list whenever it
returns an error, on every error path — both when the store's range query
fails and when a per-segment protection fetch fails — so a caller never
observes segments alongside an error. -/
theorem C9_schedule_cut_empty_on_error (s : Schedule) (start stop : models.TimeT)
    (res : List models.Segment) (e : SvcErr)
    (h : s.ScheduleCut start stop = some (res, some e)) : res = [] := by
  cases hq : s.schStorage.ScheduleCut start stop with
  | error e2 =>
    simp [Schedule.ScheduleCut, hq] at h
    exact h.1
  | ok segs =>
    cases hp : protLoop s.schStorage segs with
    | none => simp [Schedule.ScheduleCut, hq, hp] at h
    | some r =>
      cases r with
      | error e2 =>
        simp [Schedule.ScheduleCut, hq, hp] at h
        exact h.1
      | ok segs2 =>
        simp [Schedule.ScheduleCut, hq, hp] at h

/-- Claim C9 witness: against a store whose range query faults, the
service returns the empty list next to the wrapped error. -/
theorem C9_witness :
    sched9.ScheduleCut 0 10 =
      some ([], some (SvcErr.wrap "Schedule.ScheduleCut" (SvcErr.store (StorageErr.other 2)))) ∧
    ([] : List models.Segment) = [] :=
  ⟨by decide,
   C9_schedule_cut_empty_on_error sched9 0 10 []
     (SvcErr.wrap "Schedule.ScheduleCut" (SvcErr.store (StorageErr.other 2))) (by decide)⟩

/-- Claim C10: Schedule.NewSegment dereferences the pointer fields of its
argument (and the Duration of the fetched media) without any nil check: a
nil MediaID crashes unconditionally; after a successful media lookup a nil
Duration, StopCut or BeginCut crashes; and once the cut checks pass a nil
Start crashes — in each case the outcome is the crash none, never an error
value returned at the public interface. -/
theorem C10_nil_pointer_totality (s : Schedule) (segment : models.Segment) :
    (segment.MediaID = none → s.NewSegment segment = none) ∧
    (∀ mid media, segment.MediaID = some mid →
      s.mediaStorage.Media mid = Except.ok media →
      (media.Duration = none ∨ segment.StopCut = none ∨ segment.BeginCut = none) →
      s.NewSegment segment = none) ∧
    (∀ mid media dur bc sc, segment.MediaID = some mid →
      s.mediaStorage.Media mid = Except.ok media →
      media.Duration = some dur → segment.StopCut = some sc →
      segment.BeginCut = some bc →
      ¬(dur < sc ∨ dur < bc ∨ bc < 0 ∨ sc < 0) → ¬(bc > sc) →
      segment.Start = none → s.NewSegment segment = none) := by
  refine ⟨?_, ?_, ?_⟩
  · intro h
    simp [Schedule.NewSegment, h]
  · intro mid media hmid hmedia hnil
    rcases hnil with hD | hS | hB
    · simp [Schedule.NewSegment, hmid, hmedia, hD]
    · cases hD : media.Duration with
      | none => simp [Schedule.NewSegment, hmid, hmedia, hD]
      | some dur => simp [Schedule.NewSegment, hmid, hmedia, hD, hS]
    · cases hD : media.Duration with
      | none => simp [Schedule.NewSegment, hmid, hmedia, hD]
      | some dur =>
        cases hS : segment.StopCut with
        | none => simp [Schedule.NewSegment, hmid, hmedia, hD, hS]
        | some sc => simp [Schedule.NewSegment, hmid, hmedia, hD, hS, hB]
  · intro mid media dur bc sc hmid hmedia hdur hsc hbc hok hbs hstart
    simp [Schedule.NewSegment, newSegmentCut, hmid, hmedia, hdur, hsc, hbc,
      hok, hbs, hstart]

/-- A new segment with a nil StopCut pointer. -/
def segNilStop : models.Segment :=
  { ID := none, MediaID := some 1, Start := some 0, BeginCut := some 0,
    StopCut := none, Protected := false }

/-- A new segment with a nil Start pointer and valid cuts. -/
def segNilStart : models.Segment :=
  { ID := none, MediaID := some 1, Start := none, BeginCut := some 0,
    StopCut := some 10, Protected := false }

/-- Claim C10 witness: the zero-value segment (nil MediaID), a segment
with nil StopCut, and a segment with nil Start all crash the insertion
(outcome none) rather than being rejected with an error. -/
theorem C10_witness :
    sched1.NewSegment models.emptySegment = none ∧
    sched1.NewSegment segNilStop = none ∧
    sched1.NewSegment segNilStart = none :=
  ⟨(C10_nil_pointer_totality sched1 models.emptySegment).1 rfl,
   (C10_nil_pointer_totality sched1 segNilStop).2.1 1 mediaA rfl rfl
     (Or.inr (Or.inl rfl)),
   (C10_nil_pointer_totality sched1 segNilStart).2.2 1 mediaA 300 0 10 rfl rfl
     rfl rfl rfl (by decide) (by decide) rfl⟩

/-- A decimal digit character is never the decimal point. -/
theorem digitChar_mod_ne_dot (m : Nat) : Nat.digitChar (m % 10) ≠ '.' := by
  have h : m % 10 < 10 := Nat.mod_lt _ (by norm_num)
  have h2 : ∀ k, k < 10 → Nat.digitChar k ≠ '.' := by decide
  exact h2 _ h

/-- The two-digit pieces of the layout contain no decimal point. -/
theorem dot_notin_pad2 (n : Nat) : '.' ∉ models.pad2 n := by
  intro h
  simp [models.pad2] at h
  rcases h with h | h
  · exact digitChar_mod_ne_dot (n / 10) h.symm
  · exact digitChar_mod_ne_dot n h.symm

/-- The four-digit year piece of the layout contains no decimal point. -/
theorem dot_notin_pad4 (n : Nat) : '.' ∉ models.pad4 n := by
  intro h
  simp [models.pad4] at h
  rcases h with h | h | h | h
  · exact digitChar_mod_ne_dot (n / 1000) h.symm
  · exact digitChar_mod_ne_dot (n / 100) h.symm
  · exact digitChar_mod_ne_dot (n / 10) h.symm
  · exact digitChar_mod_ne_dot n h.symm

/-- The numeric offset piece of the layout contains no decimal point. -/
theorem dot_notin_offsetChars (m : Int) : '.' ∉ models.offsetChars m := by
  intro h
  simp only [models.offsetChars, List.mem_cons, List.mem_append] at h
  rcases h with h | h | h | h
  · by_cases hm : m < 0
    · rw [if_pos hm] at h; exact absurd h (by decide)
    · rw [if_neg hm] at h; exact absurd h (by decide)
  · exact dot_notin_pad2 _ h
  · exact absurd h (by decide)
  · exact dot_notin_pad2 _ h

/-- The date-and-clock part of the layout contains no decimal point. -/
theorem dot_notin_dateTimeChars (t : models.GoTime) : '.' ∉ models.dateTimeChars t := by
  intro h
  simp only [models.dateTimeChars, List.mem_cons, List.mem_append] at h
  rcases h with h | h | h | h | h | h | h | h | h | h | h
  · exact dot_notin_pad4 _ h
  · exact absurd h (by decide)
  · exact dot_notin_pad2 _ h
  · exact absurd h (by decide)
  · exact dot_notin_pad2 _ h
  · exact absurd h (by decide)
  · exact dot_notin_pad2 _ h
  · exact absurd h (by decide)
  · exact dot_notin_pad2 _ h
  · exact absurd h (by decide)
  · exact dot_notin_pad2 _ h

/-- Claim C8 counterexample: a start instant whose nanosecond part is
zero — here 2024-01-02 03:04:05 at offset +03:00 — serializes without any
fractional seconds at all (the layout piece ".999999999" trims to
nothing), so the wire representation is not the fixed fully-qualified
shape YYYY-MM-DDThh:mm:ss.ffffff+hh:mm for every input time value. -/
theorem C8_counterexample_zero_nanos :
    models.marshalJSONStart
        { year := 2024, month := 1, day := 2, hour := 3, minute := 4,
          second := 5, nanos := 0, offsetMinutes := 180 } =
      "2024-01-02T03:04:05+03:00" ∧
    '.' ∉ (models.GoTime.Format
        { year := 2024, month := 1, day := 2, hour := 3, minute := 4,
          second := 5, nanos := 0, offsetMinutes := 180 }) := by
  constructor
  · rfl
  · decide

/-- Claim C8 amended: the serialized start always carries the
fully-qualified date-and-clock prefix and ends with the numeric UTC
offset, but fractional seconds appear exactly when the nanosecond part of
the instant is non-zero (Go's ".999999999" trims trailing zeros and drops
the decimal point entirely at zero). -/
theorem C8_amended_format (t : models.GoTime) :
    ('.' ∈ models.GoTime.Format t ↔ t.nanos ≠ 0) ∧
    (∃ pre, models.GoTime.Format t = pre ++ models.offsetChars t.offsetMinutes) ∧
    (∃ rest, models.GoTime.Format t = models.dateTimeChars t ++ rest) := by
  refine ⟨⟨?_, ?_⟩, ?_, ?_⟩
  · intro h hn
    have hfmt : models.GoTime.Format t =
        models.dateTimeChars t ++ models.offsetChars t.offsetMinutes := by
      simp [models.GoTime.Format, models.fracNanos, hn]
    rw [hfmt, List.mem_append] at h
    rcases h with h | h
    · exact dot_notin_dateTimeChars t h
    · exact dot_notin_offsetChars _ h
  · intro hn
    have hfmt : models.GoTime.Format t =
        models.dateTimeChars t ++
          (('.' :: models.dropTrailingZeros (models.nineDigits t.nanos)) ++
            models.offsetChars t.offsetMinutes) := by
      simp [models.GoTime.Format, models.fracNanos, hn]
    rw [hfmt]
    exact List.mem_append_right _ (List.mem_append_left _ (List.mem_cons_self _ _))
  · exact ⟨models.dateTimeChars t ++ models.fracNanos t.nanos,
      by simp [models.GoTime.Format]⟩
  · exact ⟨models.fracNanos t.nanos ++ models.offsetChars t.offsetMinutes,
      by simp [models.GoTime.Format]⟩

end Radio
